import Mathlib

/-!
Verification development for the VaaS lifecycle hook of the mesos-executor
repository (src/hook/vaas/hook.go).

The embedding translates the hook's state machine into pure Lean functions:

* `watchTaskStatus` embeds the bounded polling loop (hook.go, lines 154-186).
  The Go loop races a 1-second ticker against a 90-second timer inside a
  `select`.  In discrete time the ticker fires at times 1, 2, ..., and the
  timer at time 90, so 89 polls happen strictly before the deadline; the
  90th tick coincides with the timer and the embedding resolves that race in
  the timer's favour.  The control-plane responses are a sequence
  `fetch : Nat -> PollResult`, one entry per tick.
* `RegisterBackend` and `DeregisterBackend` embed the registration and
  deregistration engines (hook.go, lines 35-152) as explicit state passing
  on the `Hook` record, returning besides the new state and the error value
  the list of control-plane calls the run issued.
* The Metadata Accessor (`mesosutils.TaskInfo`) and the Control-Plane Client
  (`vaas.Client`) are repository packages whose sources are not under src/;
  following the spec they are external collaborators reached through a
  narrow interface, so they are modelled from the spec as records of query
  results / response functions.
-/

set_option autoImplicit false

namespace Vaas

/-- Status of an in-flight asynchronous VaaS change.  Modelled from the spec:
the client package defining the `StatusPending`, `StatusSuccess` and
`StatusFailure` constants is not under src/; the spec fixes the state space to
exactly Pending, Success and Failure. -/
inductive TaskStatus
  | pending
  | success
  | failure
deriving DecidableEq, Repr

/-- PendingTask of the async path: `Task` of hook.go (resource URI, lifecycle
status, diagnostic info). -/
structure Task where
  resourceURI : String
  status : TaskStatus
  info : String
deriving DecidableEq, Repr

/-- Result of one `client.TaskStatus(task)` fetch.  Modelled from the spec:
`FetchTaskStatus(task) -> error` mutates the task's status/info fields on
success and leaves them unchanged on a fetch error. -/
inductive PollResult
  | fetchErr (e : String)
  | fetched (s : TaskStatus) (info : String)
deriving DecidableEq, Repr

/-- True exactly when the fetch produced a terminal state. -/
def PollResult.isTerminal : PollResult → Bool
  | .fetched .success _ => true
  | .fetched .failure _ => true
  | _ => false

/-- Error message of the timeout branch of `watchTaskStatus`
(hook.go line 166). -/
def timeoutMsg : String := "VaaS registration timed out"

/-- Error message of the `StatusFailure` branch of `watchTaskStatus`
(hook.go line 179; the Go code formats the - there nil - fetch error into
the message). -/
def registrationFailedMsg : String := "Registration in VaaS failed"

/-- Outcome of one iteration of the poll loop body. -/
inductive StepResult
  | cont (t : Task)
  | halt (t : Task) (r : Except String Unit)
deriving Repr

/-- One iteration of the `case <-ticker.C` body of `watchTaskStatus`
(hook.go lines 167-183): a fetch error leaves the task unchanged and
continues; a fetched status is written into the task, then `failure`
returns an error, `success` returns nil, and anything else continues. -/
def pollStep (t : Task) (r : PollResult) : StepResult :=
  match r with
  | .fetchErr _ => .cont t
  | .fetched s info =>
    let t' : Task := { t with status := s, info := info }
    match s with
    | .failure => .halt t' (.error registrationFailedMsg)
    | .success => .halt t' (.ok ())
    | .pending => .cont t'

/-- Maximum wait of the poller, in time units (seconds): the 90-second timer
of hook.go line 158. -/
def maxWait : Nat := 90

/-- Poll interval of the poller, in time units (seconds): the 1-second ticker
of hook.go line 155. -/
def pollInterval : Nat := 1

/-- Number of poll ticks that fire strictly before the deadline: ticks at
times 1, ..., 89 precede the timer at time 90 (the tick coinciding with the
deadline is resolved in the timer's favour). -/
def pollBudget : Nat := maxWait / pollInterval - 1

/-- Fuel-indexed poll loop: `watchFrom fetch fuel i t` performs at most
`fuel` polls starting at poll index `i`, and times out when the fuel is
exhausted. -/
def watchFrom (fetch : Nat → PollResult) : Nat → Nat → Task → Except String Unit
  | 0, _, _ => .error timeoutMsg
  | fuel + 1, i, t =>
    match pollStep t (fetch i) with
    | .cont t' => watchFrom fetch fuel (i + 1) t'
    | .halt _ r => r

/-- `watchTaskStatus` of hook.go (lines 154-186): poll the control plane once
per tick until a terminal state is fetched or the deadline fires. -/
def watchTaskStatus (fetch : Nat → PollResult) (task : Task) : Except String Unit :=
  watchFrom fetch pollBudget 0 task

/-- Label key holding the director name (hook.go line 18). -/
def vaasDirectorLabelKey : String := "director"

/-- Label key selecting asynchronous registration (hook.go line 19). -/
def vaasAsyncLabelKey : String := "vaas-queue"

/-- Environment variable overriding the initial weight (hook.go line 22). -/
def vaasInitialWeight : String := "VAAS_INITIAL_WEIGHT"

/-- Label key marking canary instances (hook.go line 25). -/
def canaryLabelKey : String := "canary"

/-- Datacenter descriptor resolved by the control plane.  Modelled from the
spec: the client package defining `DC` is not under src/; the spec treats it
as an opaque descriptor resolved once per registration. -/
structure DC where
  name : String
deriving DecidableEq, Repr

/-- BackendSpec submitted to the control plane: the `Backend` record built by
`RegisterBackend` (hook.go lines 91-99).  The field set follows the spec's
data model for the fields hook.go populates. -/
structure Backend where
  address : String
  director : String
  weight : Option Int
  dc : DC
  port : Int
  inheritTimeProfile : Bool
  tags : List String
deriving DecidableEq, Repr

/-- Fixed API path prefix of a director reference.  Modelled from the spec:
`apiDirectorPath` lives in the client package, not under src/; the spec only
requires a fixed prefix completed by the numeric id and a trailing
separator. -/
def apiDirectorPath : String := "/api/v0.1/director/"

/-- Result of a successful `client.AddBackend(backend, async)` call.
Modelled from the spec: the client package is not under src/;
`SubmitBackend(spec, async) -> (resourceLocatorOrID, error)` returns the
resource locator to poll and embeds the assigned backend identifier in the
submitted spec (`backend.ID`, read by hook.go lines 107 and 123). -/
structure AddResult where
  taskURI : String
  id : Option Int
deriving DecidableEq, Repr

/-- One call issued to the control plane, recorded so that call counts are
observable. -/
inductive CPCall
  | getDC (name : String)
  | findDirector (name : String)
  | addBackend (b : Backend) (async : Bool)
  | deleteBackend (id : Int)
deriving DecidableEq, Repr

/-- Control-Plane Client.  Modelled from the spec: the client implementation
is not under src/, so it is a record of response functions for the four
operations the hook consumes (`taskStatus` gives the response of the i-th
status fetch of the current poll loop). -/
structure Client where
  getDC : String → Except String DC
  findDirectorID : String → Except String Int
  addBackend : Backend → Bool → Except String AddResult
  deleteBackend : Int → Except String Unit
  taskStatus : Nat → PollResult

/-- Hook state: the backend identifier of the last registered backend
(hook.go lines 29-32; the client is passed explicitly to the engines). -/
structure Hook where
  backendID : Option Int
deriving DecidableEq, Repr

/-- Runtime facts consumed by registration.  Modelled from the spec: the
runenv package is not under src/; registration reads the local datacenter
name (fallibly) and the local network address. -/
structure Env where
  datacenter : Except String String
  ip : String

/-- Metadata Accessor view of an instance descriptor.  Modelled from the
spec: the mesosutils package is not under src/; the hook consumes the
director/canary/async labels, the advertised ports, the metadata weight
query (fallible) and named environment variable lookup. -/
structure TaskInfo where
  labels : List (String × String)
  ports : List Nat
  getWeight : Except String Int
  envVars : List (String × String)

/-- Label lookup: value of the first binding of `key`, or the empty string
when the label is absent. -/
def TaskInfo.getLabelValue (ti : TaskInfo) (key : String) : String :=
  match ti.labels.find? (fun p => p.fst == key) with
  | some p => p.snd
  | none => ""

/-- Environment lookup: value of the first binding of `key`, or the empty
string when absent. -/
def TaskInfo.findEnvValue (ti : TaskInfo) (key : String) : String :=
  match ti.envVars.find? (fun p => p.fst == key) with
  | some p => p.snd
  | none => ""

/-- Decimal digit run parser: `none` on an empty run or any non-digit. -/
def parseDigits (cs : List Char) : Option Nat :=
  match cs with
  | [] => none
  | _ =>
    cs.foldl
      (fun acc c =>
        match acc with
        | none => none
        | some n => if c.isDigit then some (10 * n + (c.toNat - 48)) else none)
      (some 0)

/-- Integer parse of a string: optional sign followed by at least one digit,
`none` otherwise.  Modelled from the spec: `strconv.Atoi` is library code
outside the repository; the spec requires the override to be honored only if
it parses as an integer. -/
def atoi (s : String) : Option Int :=
  match s.toList with
  | '+' :: rest => (parseDigits rest).map Int.ofNat
  | '-' :: rest => (parseDigits rest).map (fun n => -(Int.ofNat n : Int))
  | cs => (parseDigits cs).map Int.ofNat

/-- Initial weight resolution (hook.go lines 68-80): start from the metadata
weight when present, then let the environment override win whenever it parses
as an integer. -/
def resolveInitialWeight (ti : TaskInfo) : Option Int :=
  let fromMeta : Option Int :=
    match ti.getWeight with
    | .error _ => none
    | .ok weight => some weight
  match atoi (ti.findEnvValue vaasInitialWeight) with
  | some val => some val
  | none => fromMeta

/-- Tag set of the submitted spec (hook.go lines 85-89): exactly the canary
tag for canary-labelled instances, empty otherwise. -/
def mkTags (ti : TaskInfo) : List String :=
  if ti.getLabelValue canaryLabelKey ≠ "" then [canaryLabelKey] else []

/-- The `Backend` record built by `RegisterBackend` (hook.go lines 91-99)
from the resolved datacenter, director id and first advertised port. -/
def mkBackend (env : Env) (ti : TaskInfo) (dc : DC) (directorID : Int)
    (firstPort : Nat) : Backend :=
  { address := env.ip
  , director := apiDirectorPath ++ toString directorID ++ "/"
  , weight := resolveInitialWeight ti
  , dc := dc
  , port := Int.ofNat firstPort
  , inheritTimeProfile := true
  , tags := mkTags ti }

/-- Result of one engine run: the new hook state, the returned error value,
and the control-plane calls issued. -/
structure Outcome where
  hook : Hook
  result : Except String Unit
  calls : List CPCall
deriving Repr

/-- `RegisterBackend` of hook.go (lines 35-129): skip without a director
label; resolve datacenter and director id; require at least one port; build
the spec; submit asynchronously (driving the poller) when the async label
equals "true", synchronously otherwise. -/
def RegisterBackend (env : Env) (client : Client) (sh : Hook)
    (taskInfo : TaskInfo) : Outcome :=
  if taskInfo.getLabelValue vaasDirectorLabelKey = "" then ⟨sh, .ok (), []⟩
  else
    match env.datacenter with
    | .error e => ⟨sh, .error e, []⟩
    | .ok runtimeDC =>
      match client.getDC runtimeDC with
      | .error e => ⟨sh, .error e, [.getDC runtimeDC]⟩
      | .ok dc =>
        match client.findDirectorID (taskInfo.getLabelValue vaasDirectorLabelKey) with
        | .error e =>
          ⟨sh, .error e,
            [.getDC runtimeDC,
              .findDirector (taskInfo.getLabelValue vaasDirectorLabelKey)]⟩
        | .ok directorID =>
          match taskInfo.ports with
          | [] =>
            ⟨sh, .error "Service has no ports available",
              [.getDC runtimeDC,
                .findDirector (taskInfo.getLabelValue vaasDirectorLabelKey)]⟩
          | firstPort :: _ =>
            if taskInfo.getLabelValue vaasAsyncLabelKey = "true" then
              match client.addBackend (mkBackend env taskInfo dc directorID firstPort) true with
              | .error e =>
                ⟨sh, .error ("Could not register with VaaS director: " ++ e),
                  [.getDC runtimeDC,
                    .findDirector (taskInfo.getLabelValue vaasDirectorLabelKey),
                    .addBackend (mkBackend env taskInfo dc directorID firstPort) true]⟩
              | .ok res =>
                match watchTaskStatus client.taskStatus
                    { resourceURI := res.taskURI, status := .pending, info := "" } with
                | .error e =>
                  ⟨{ backendID := res.id },
                    .error ("Could not register with VaaS director: " ++ e),
                    [.getDC runtimeDC,
                      .findDirector (taskInfo.getLabelValue vaasDirectorLabelKey),
                      .addBackend (mkBackend env taskInfo dc directorID firstPort) true]⟩
                | .ok _ =>
                  ⟨{ backendID := res.id }, .ok (),
                    [.getDC runtimeDC,
                      .findDirector (taskInfo.getLabelValue vaasDirectorLabelKey),
                      .addBackend (mkBackend env taskInfo dc directorID firstPort) true]⟩
            else
              match client.addBackend (mkBackend env taskInfo dc directorID firstPort) false with
              | .error e =>
                ⟨sh, .error e,
                  [.getDC runtimeDC,
                    .findDirector (taskInfo.getLabelValue vaasDirectorLabelKey),
                    .addBackend (mkBackend env taskInfo dc directorID firstPort) false]⟩
              | .ok res =>
                ⟨{ backendID := res.id }, .ok (),
                  [.getDC runtimeDC,
                    .findDirector (taskInfo.getLabelValue vaasDirectorLabelKey),
                    .addBackend (mkBackend env taskInfo dc directorID firstPort) false]⟩

/-- `DeregisterBackend` of hook.go (lines 132-152): with a recorded backend
identifier, delete it (on success clear the state, on failure keep it and
surface the error); without one, a silent no-op. -/
def DeregisterBackend (client : Client) (sh : Hook)
    (taskInfo : TaskInfo) : Outcome :=
  match sh.backendID with
  | some id =>
    match client.deleteBackend id with
    | .error e => ⟨sh, .error e, [.deleteBackend id]⟩
    | .ok _ => ⟨{ backendID := none }, .ok (), [.deleteBackend id]⟩
  | none => ⟨sh, .ok (), []⟩

/-- Submissions among a list of control-plane calls: the `(spec, async)`
pairs of the `addBackend` entries. -/
def submittedAdds (calls : List CPCall) : List (Backend × Bool) :=
  calls.filterMap fun c =>
    match c with
    | .addBackend b a => some (b, a)
    | _ => none

/-- Status sequence Pending, Pending, Success (from the third poll on). -/
def pendingPendingSuccess : Nat → PollResult :=
  fun i => if i < 2 then .fetched .pending "" else .fetched .success ""

/-- Status sequence that stays Pending forever. -/
def allPendingSeq : Nat → PollResult := fun _ => .fetched .pending ""

/-- Status sequence that reports Failure immediately. -/
def failFirstSeq : Nat → PollResult := fun _ => .fetched .failure ""

/-- Sample pending task used to instantiate the poller theorems. -/
def task0 : Task :=
  { resourceURI := "/api/v0.1/task/1/", status := .pending, info := "" }

theorem watchFrom_succ (fetch : Nat → PollResult) (fuel i : Nat) (t : Task) :
    watchFrom fetch (fuel + 1) i t =
      match pollStep t (fetch i) with
      | .cont t' => watchFrom fetch fuel (i + 1) t'
      | .halt _ r => r := rfl

theorem watchFrom_timeout (fetch : Nat → PollResult) :
    ∀ (fuel i : Nat) (t : Task),
    (∀ j, j < fuel → (fetch (i + j)).isTerminal = false) →
    watchFrom fetch fuel i t = .error timeoutMsg := by
  intro fuel
  induction fuel with
  | zero => intro i t _; rfl
  | succ fuel ih =>
    intro i t h
    have h0 : (fetch i).isTerminal = false := by
      simpa using h 0 (Nat.succ_pos fuel)
    have hrest : ∀ j, j < fuel → (fetch (i + 1 + j)).isTerminal = false := by
      intro j hj
      have heq : i + 1 + j = i + (j + 1) := by omega
      rw [heq]
      exact h (j + 1) (by omega)
    rw [watchFrom_succ]
    cases hf : fetch i with
    | fetchErr e => exact ih (i + 1) t hrest
    | fetched s info =>
      cases s with
      | pending => exact ih (i + 1) _ hrest
      | success => rw [hf] at h0; simp [PollResult.isTerminal] at h0
      | failure => rw [hf] at h0; simp [PollResult.isTerminal] at h0

theorem watchFrom_congr (fetch fetch' : Nat → PollResult) :
    ∀ (fuel i : Nat) (t : Task),
    (∀ j, j < fuel → fetch' (i + j) = fetch (i + j)) →
    watchFrom fetch' fuel i t = watchFrom fetch fuel i t := by
  intro fuel
  induction fuel with
  | zero => intro i t _; rfl
  | succ fuel ih =>
    intro i t h
    have h0 : fetch' i = fetch i := by simpa using h 0 (Nat.succ_pos fuel)
    have hrest : ∀ j, j < fuel → fetch' (i + 1 + j) = fetch (i + 1 + j) := by
      intro j hj
      have heq : i + 1 + j = i + (j + 1) := by omega
      rw [heq]
      exact h (j + 1) (by omega)
    rw [watchFrom_succ, watchFrom_succ, h0]
    cases pollStep t (fetch i) with
    | cont t' => exact ih (i + 1) t' hrest
    | halt t' r => rfl

theorem watchFrom_failure (fetch : Nat → PollResult) :
    ∀ (fuel k i : Nat) (t : Task),
    k < fuel →
    (∃ info, fetch (i + k) = .fetched .failure info) →
    (∀ j, j < k → ∀ info, fetch (i + j) ≠ .fetched .success info) →
    watchFrom fetch fuel i t = .error registrationFailedMsg := by
  intro fuel
  induction fuel with
  | zero => intro k i t hk _ _; exact absurd hk (Nat.not_lt_zero k)
  | succ fuel ih =>
    intro k i t hk hfail hnosucc
    cases k with
    | zero =>
      obtain ⟨info, hf⟩ := hfail
      have hf' : fetch i = .fetched .failure info := by simpa using hf
      rw [watchFrom_succ, hf']
      rfl
    | succ k =>
      have hns : ∀ info, fetch i ≠ .fetched .success info := by
        intro info
        simpa using hnosucc 0 (Nat.succ_pos k) info
      have hfail' : ∃ info, fetch (i + 1 + k) = .fetched .failure info := by
        obtain ⟨info, hf⟩ := hfail
        exact ⟨info, by rw [show i + 1 + k = i + (k + 1) by omega]; exact hf⟩
      have hnosucc' : ∀ j, j < k → ∀ info, fetch (i + 1 + j) ≠ .fetched .success info := by
        intro j hj info
        rw [show i + 1 + j = i + (j + 1) by omega]
        exact hnosucc (j + 1) (by omega) info
      have hk' : k < fuel := by omega
      rw [watchFrom_succ]
      cases hf : fetch i with
      | fetchErr e => exact ih k (i + 1) t hk' hfail' hnosucc'
      | fetched s info =>
        cases s with
        | pending => exact ih k (i + 1) _ hk' hfail' hnosucc'
        | success => exact absurd hf (hns info)
        | failure => rfl

/-- C1: each poll step of `watchTaskStatus` leaves the task unchanged and
continues on a fetch error, halts with an error on a fetched `Failure`,
halts without error on a fetched `Success`, and continues on a fetched
`Pending`; in particular the sequence Pending, Pending, Success yields no
error and any sequence reaching `Failure` first yields an error. -/
theorem pollStep_and_await_behaviour (t : Task) :
    (∀ e, pollStep t (.fetchErr e) = .cont t)
    ∧ (∀ info, pollStep t (.fetched .failure info)
        = .halt { t with status := .failure, info := info }
            (.error registrationFailedMsg))
    ∧ (∀ info, pollStep t (.fetched .success info)
        = .halt { t with status := .success, info := info } (.ok ()))
    ∧ (∀ info, pollStep t (.fetched .pending info)
        = .cont { t with status := .pending, info := info })
    ∧ watchTaskStatus pendingPendingSuccess t = .ok ()
    ∧ (∀ fetch k, k < pollBudget →
        (∃ info, fetch k = .fetched .failure info) →
        (∀ j, j < k → ∀ info, fetch j ≠ .fetched .success info) →
        watchTaskStatus fetch t = .error registrationFailedMsg) := by
  refine ⟨fun _ => rfl, fun _ => rfl, fun _ => rfl, fun _ => rfl, rfl, ?_⟩
  intro fetch k hk hfail hnosucc
  exact watchFrom_failure fetch pollBudget k 0 t hk
    (by simpa using hfail) (by simpa using hnosucc)

/-- Witness for C1: the poller applied to a sequence whose first fetch is a
terminal `Failure` returns the failure error. -/
theorem pollStep_and_await_behaviour_witness :
    watchTaskStatus failFirstSeq task0 = .error registrationFailedMsg :=
  (pollStep_and_await_behaviour task0).2.2.2.2.2 failFirstSeq 0 (by decide)
    ⟨"", rfl⟩ (fun j hj _ => absurd hj (Nat.not_lt_zero j))

/-- C2: the poller runs with maximum wait 90 and poll interval 1; whenever no
terminal state is fetched before the deadline, `watchTaskStatus` returns the
timeout error, and its outcome never depends on fetches past the deadline
(no poll after the deadline influences the result). -/
theorem await_deadline_bound (fetch : Nat → PollResult) (t : Task)
    (h : ∀ i, i < pollBudget → (fetch i).isTerminal = false) :
    watchTaskStatus fetch t = .error timeoutMsg
    ∧ maxWait = 90 ∧ pollInterval = 1
    ∧ (∀ fetch' t', (∀ i, i < pollBudget → fetch' i = fetch i) →
        watchTaskStatus fetch' t' = watchTaskStatus fetch t') := by
  refine ⟨?_, rfl, rfl, ?_⟩
  · exact watchFrom_timeout fetch pollBudget 0 t (fun j hj => by simpa using h j hj)
  · intro fetch' t' h'
    exact watchFrom_congr fetch fetch' pollBudget 0 t' (fun j hj => by simpa using h' j hj)

/-- Witness for C2: a sequence that stays Pending forever times out. -/
theorem await_deadline_bound_witness :
    watchTaskStatus allPendingSeq task0 = .error timeoutMsg :=
  (await_deadline_bound allPendingSeq task0 (fun _ _ => rfl)).1

/-- Control-plane client whose calls all succeed. -/
def clientOK : Client :=
  { getDC := fun name => .ok ⟨name⟩
  , findDirectorID := fun _ => .ok 7
  , addBackend := fun _ _ => .ok ⟨"/api/v0.1/task/1/", some 42⟩
  , deleteBackend := fun _ => .ok ()
  , taskStatus := pendingPendingSuccess }

/-- Client whose delete operation fails. -/
def clientDeleteFail : Client :=
  { clientOK with deleteBackend := fun _ => .error "delete failed" }

/-- Client whose status fetches report Failure. -/
def clientAsyncFail : Client :=
  { clientOK with taskStatus := failFirstSeq }

/-- Runtime facts sample. -/
def env0 : Env := { datacenter := .ok "dc1", ip := "10.0.0.1" }

/-- Instance descriptor registering synchronously. -/
def tiSync : TaskInfo :=
  { labels := [("director", "service-director")]
  , ports := [8080, 9090]
  , getWeight := .ok 10
  , envVars := [("VAAS_INITIAL_WEIGHT", "50")] }

/-- Instance descriptor registering asynchronously. -/
def tiAsync : TaskInfo :=
  { tiSync with labels := [("director", "service-director"), ("vaas-queue", "true")] }

/-- C5: deregistration is idempotent.  With a recorded identifier and a
succeeding delete, the first call issues exactly one delete, clears the
state and returns no error; the immediately repeated call returns no error
and issues no control-plane call; with no recorded identifier,
deregistration is a silent no-op issuing no call. -/
theorem deregister_idempotent (client : Client) (sh : Hook) (id : Int)
    (ti1 ti2 : TaskInfo)
    (hid : sh.backendID = some id)
    (hok : client.deleteBackend id = .ok ()) :
    (DeregisterBackend client sh ti1).hook.backendID = none
    ∧ (DeregisterBackend client sh ti1).result = .ok ()
    ∧ (DeregisterBackend client sh ti1).calls = [.deleteBackend id]
    ∧ (DeregisterBackend client (DeregisterBackend client sh ti1).hook ti2).result = .ok ()
    ∧ (DeregisterBackend client (DeregisterBackend client sh ti1).hook ti2).calls = []
    ∧ (∀ sh0 ti0, sh0.backendID = none →
        DeregisterBackend client sh0 ti0 = ⟨sh0, .ok (), []⟩) := by
  have h1 : DeregisterBackend client sh ti1 = ⟨⟨none⟩, .ok (), [.deleteBackend id]⟩ := by
    simp only [DeregisterBackend, hid, hok]
  have hnoop : ∀ sh0 ti0, sh0.backendID = none →
      DeregisterBackend client sh0 ti0 = ⟨sh0, .ok (), []⟩ := by
    intro sh0 ti0 h0
    simp only [DeregisterBackend, h0]
  refine ⟨?_, ?_, ?_, ?_, ?_, hnoop⟩
  · rw [h1]
  · rw [h1]
  · rw [h1]
  · rw [h1, hnoop ⟨none⟩ ti2 rfl]
  · rw [h1, hnoop ⟨none⟩ ti2 rfl]

/-- Witness for C5: concrete first and second deregistration after a
registration recording identifier 42. -/
theorem deregister_idempotent_witness :
    (DeregisterBackend clientOK ⟨some 42⟩ tiSync).hook.backendID = none
    ∧ (DeregisterBackend clientOK ⟨some 42⟩ tiSync).result = .ok ()
    ∧ (DeregisterBackend clientOK ⟨some 42⟩ tiSync).calls = [.deleteBackend 42]
    ∧ (DeregisterBackend clientOK
        (DeregisterBackend clientOK ⟨some 42⟩ tiSync).hook tiSync).result = .ok ()
    ∧ (DeregisterBackend clientOK
        (DeregisterBackend clientOK ⟨some 42⟩ tiSync).hook tiSync).calls = [] := by
  obtain ⟨h1, h2, h3, h4, h5, _⟩ :=
    deregister_idempotent clientOK ⟨some 42⟩ 42 tiSync tiSync rfl rfl
  exact ⟨h1, h2, h3, h4, h5⟩

/-- C6: deregistration is atomic on error.  With a recorded identifier and a
failing delete, the call surfaces the delete error, leaves the hook state
unmodified, and issued that one delete call. -/
theorem deregister_error_atomic (client : Client) (sh : Hook) (id : Int)
    (ti : TaskInfo) (e : String)
    (hid : sh.backendID = some id)
    (herr : client.deleteBackend id = .error e) :
    DeregisterBackend client sh ti = ⟨sh, .error e, [.deleteBackend id]⟩ := by
  simp only [DeregisterBackend, hid, herr]

/-- Witness for C6: a concrete failing delete leaves identifier 42
recorded. -/
theorem deregister_error_atomic_witness :
    DeregisterBackend clientDeleteFail ⟨some 42⟩ tiSync
      = ⟨⟨some 42⟩, .error "delete failed", [.deleteBackend 42]⟩ :=
  deregister_error_atomic clientDeleteFail ⟨some 42⟩ 42 tiSync "delete failed" rfl rfl

/-- C8: the outcome of deregistration does not depend on the instance
descriptor argument: for any two descriptors the hook state, the result and
the control-plane calls coincide. -/
theorem deregister_input_independent (client : Client) (sh : Hook)
    (ti1 ti2 : TaskInfo) :
    DeregisterBackend client sh ti1 = DeregisterBackend client sh ti2 := rfl

/-- C3: on the synchronous path, a succeeding submission makes
`RegisterBackend` record the returned backend identifier as hook state, in
a run with exactly one submission call, and return no error; a failing
submission makes it return that error with the previous hook state
untouched. -/
theorem register_sync_sets_state (env : Env) (client : Client) (sh : Hook)
    (ti : TaskInfo) (rdc : String) (dc : DC) (did : Int) (p : Nat)
    (rest : List Nat)
    (hdir : ti.getLabelValue vaasDirectorLabelKey ≠ "")
    (hdc : env.datacenter = .ok rdc)
    (hgdc : client.getDC rdc = .ok dc)
    (hfd : client.findDirectorID (ti.getLabelValue vaasDirectorLabelKey) = .ok did)
    (hports : ti.ports = p :: rest)
    (hasync : ti.getLabelValue vaasAsyncLabelKey ≠ "true") :
    (∀ res, client.addBackend (mkBackend env ti dc did p) false = .ok res →
      RegisterBackend env client sh ti =
        ⟨{ backendID := res.id }, .ok (),
          [.getDC rdc, .findDirector (ti.getLabelValue vaasDirectorLabelKey),
            .addBackend (mkBackend env ti dc did p) false]⟩)
    ∧ (∀ e, client.addBackend (mkBackend env ti dc did p) false = .error e →
      RegisterBackend env client sh ti =
        ⟨sh, .error e,
          [.getDC rdc, .findDirector (ti.getLabelValue vaasDirectorLabelKey),
            .addBackend (mkBackend env ti dc did p) false]⟩) := by
  constructor
  · intro res hadd
    simp only [RegisterBackend, hdc, hgdc, hfd, hports, if_neg hdir,
      if_neg hasync, hadd]
  · intro e hadd
    simp only [RegisterBackend, hdc, hgdc, hfd, hports, if_neg hdir,
      if_neg hasync, hadd]

/-- Witness for C3: a concrete synchronous registration records identifier
42 and issues one submission. -/
theorem register_sync_sets_state_witness :
    RegisterBackend env0 clientOK ⟨none⟩ tiSync =
      ⟨{ backendID := some 42 }, .ok (),
        [.getDC "dc1", .findDirector (tiSync.getLabelValue vaasDirectorLabelKey),
          .addBackend (mkBackend env0 tiSync ⟨"dc1"⟩ 7 8080) false]⟩ :=
  (register_sync_sets_state env0 clientOK ⟨none⟩ tiSync "dc1" ⟨"dc1"⟩ 7 8080
      [9090] (by decide) rfl rfl rfl rfl (by decide)).1
    ⟨"/api/v0.1/task/1/", some 42⟩ rfl

/-- C4: on the asynchronous path, when the submission succeeds but the
poller returns an error (failure or timeout), `RegisterBackend` returns an
error wrapping the poller's cause while the speculatively recorded backend
identifier stays in the hook state. -/
theorem register_async_failure_keeps_id (env : Env) (client : Client)
    (sh : Hook) (ti : TaskInfo) (rdc : String) (dc : DC) (did : Int) (p : Nat)
    (rest : List Nat) (res : AddResult) (e : String)
    (hdir : ti.getLabelValue vaasDirectorLabelKey ≠ "")
    (hdc : env.datacenter = .ok rdc)
    (hgdc : client.getDC rdc = .ok dc)
    (hfd : client.findDirectorID (ti.getLabelValue vaasDirectorLabelKey) = .ok did)
    (hports : ti.ports = p :: rest)
    (hasync : ti.getLabelValue vaasAsyncLabelKey = "true")
    (hadd : client.addBackend (mkBackend env ti dc did p) true = .ok res)
    (hwatch : watchTaskStatus client.taskStatus
        { resourceURI := res.taskURI, status := .pending, info := "" } = .error e) :
    RegisterBackend env client sh ti =
      ⟨{ backendID := res.id },
        .error ("Could not register with VaaS director: " ++ e),
        [.getDC rdc, .findDirector (ti.getLabelValue vaasDirectorLabelKey),
          .addBackend (mkBackend env ti dc did p) true]⟩ := by
  simp only [RegisterBackend, hdc, hgdc, hfd, hports, if_neg hdir,
    if_pos hasync, hadd, hwatch]

/-- Witness for C4: a concrete asynchronous registration whose poll reports
Failure returns a wrapped error and keeps identifier 42 recorded. -/
theorem register_async_failure_keeps_id_witness :
    RegisterBackend env0 clientAsyncFail ⟨none⟩ tiAsync =
      ⟨{ backendID := some 42 },
        .error ("Could not register with VaaS director: " ++ registrationFailedMsg),
        [.getDC "dc1", .findDirector (tiAsync.getLabelValue vaasDirectorLabelKey),
          .addBackend (mkBackend env0 tiAsync ⟨"dc1"⟩ 7 8080) true]⟩ :=
  register_async_failure_keeps_id env0 clientAsyncFail ⟨none⟩ tiAsync "dc1"
    ⟨"dc1"⟩ 7 8080 [9090] ⟨"/api/v0.1/task/1/", some 42⟩ registrationFailedMsg
    (by decide) rfl rfl rfl rfl rfl rfl rfl

/-- Reduction of a registration run that reaches submission: its call trace
is datacenter resolution, director resolution, then one submission of the
built spec whose async flag tests the async label against "true". -/
theorem RegisterBackend_calls (env : Env) (client : Client) (sh : Hook)
    (ti : TaskInfo) (rdc : String) (dc : DC) (did : Int) (p : Nat)
    (rest : List Nat)
    (hdir : ti.getLabelValue vaasDirectorLabelKey ≠ "")
    (hdc : env.datacenter = .ok rdc)
    (hgdc : client.getDC rdc = .ok dc)
    (hfd : client.findDirectorID (ti.getLabelValue vaasDirectorLabelKey) = .ok did)
    (hports : ti.ports = p :: rest) :
    (RegisterBackend env client sh ti).calls =
      [.getDC rdc, .findDirector (ti.getLabelValue vaasDirectorLabelKey),
        .addBackend (mkBackend env ti dc did p)
          (ti.getLabelValue vaasAsyncLabelKey == "true")] := by
  by_cases hq : ti.getLabelValue vaasAsyncLabelKey = "true"
  · have hb : (ti.getLabelValue vaasAsyncLabelKey == "true") = true := by
      simp [hq]
    rw [hb]
    simp only [RegisterBackend, hdc, hgdc, hfd, hports, if_neg hdir, if_pos hq]
    cases client.addBackend (mkBackend env ti dc did p) true with
    | error e => rfl
    | ok res =>
      dsimp only
      cases watchTaskStatus client.taskStatus
          { resourceURI := res.taskURI, status := .pending, info := "" } with
      | error e => rfl
      | ok u => rfl
  · have hb : (ti.getLabelValue vaasAsyncLabelKey == "true") = false := by
      simp [hq]
    rw [hb]
    simp only [RegisterBackend, hdc, hgdc, hfd, hports, if_neg hdir, if_neg hq]
    cases client.addBackend (mkBackend env ti dc did p) false with
    | error e => rfl
    | ok res => rfl

/-- C9: a registration that reaches submission submits exactly once, and the
submission is asynchronous precisely when the async label value equals the
string "true" (any other value, including the empty string of an absent
label, submits synchronously). -/
theorem register_async_iff (env : Env) (client : Client) (sh : Hook)
    (ti : TaskInfo) (rdc : String) (dc : DC) (did : Int) (p : Nat)
    (rest : List Nat)
    (hdir : ti.getLabelValue vaasDirectorLabelKey ≠ "")
    (hdc : env.datacenter = .ok rdc)
    (hgdc : client.getDC rdc = .ok dc)
    (hfd : client.findDirectorID (ti.getLabelValue vaasDirectorLabelKey) = .ok did)
    (hports : ti.ports = p :: rest) :
    ∃ b a, submittedAdds (RegisterBackend env client sh ti).calls = [(b, a)]
      ∧ (a = true ↔ ti.getLabelValue vaasAsyncLabelKey = "true") := by
  refine ⟨mkBackend env ti dc did p,
    ti.getLabelValue vaasAsyncLabelKey == "true", ?_, ?_⟩
  · rw [RegisterBackend_calls env client sh ti rdc dc did p rest hdir hdc hgdc
      hfd hports]
    rfl
  · simp

/-- Witness for C9: a concrete descriptor carrying the async label "true"
submits asynchronously. -/
theorem register_async_iff_witness :
    ∃ b a, submittedAdds (RegisterBackend env0 clientOK ⟨none⟩ tiAsync).calls = [(b, a)]
      ∧ (a = true ↔ tiAsync.getLabelValue vaasAsyncLabelKey = "true") :=
  register_async_iff env0 clientOK ⟨none⟩ tiAsync "dc1" ⟨"dc1"⟩ 7 8080 [9090]
    (by decide) rfl rfl rfl rfl

/-- C7: the weight of the one submitted spec honors the environment override
whenever it parses as an integer, and falls back to the metadata weight
query (or absence) otherwise. -/
theorem register_weight_resolution (env : Env) (client : Client) (sh : Hook)
    (ti : TaskInfo) (rdc : String) (dc : DC) (did : Int) (p : Nat)
    (rest : List Nat)
    (hdir : ti.getLabelValue vaasDirectorLabelKey ≠ "")
    (hdc : env.datacenter = .ok rdc)
    (hgdc : client.getDC rdc = .ok dc)
    (hfd : client.findDirectorID (ti.getLabelValue vaasDirectorLabelKey) = .ok did)
    (hports : ti.ports = p :: rest) :
    ∃ b a, submittedAdds (RegisterBackend env client sh ti).calls = [(b, a)]
      ∧ (∀ v, atoi (ti.findEnvValue vaasInitialWeight) = some v → b.weight = some v)
      ∧ (atoi (ti.findEnvValue vaasInitialWeight) = none →
          b.weight = match ti.getWeight with
            | .ok w => some w
            | .error _ => none) := by
  refine ⟨mkBackend env ti dc did p,
    ti.getLabelValue vaasAsyncLabelKey == "true", ?_, ?_, ?_⟩
  · rw [RegisterBackend_calls env client sh ti rdc dc did p rest hdir hdc hgdc
      hfd hports]
    rfl
  · intro v hv
    show resolveInitialWeight ti = some v
    simp only [resolveInitialWeight, hv]
  · intro hv
    show resolveInitialWeight ti = _
    simp only [resolveInitialWeight, hv]
    cases ti.getWeight with
    | ok w => rfl
    | error e => rfl

/-- Witness for C7: a descriptor with metadata weight 10 and override "50"
submits weight 50 (the override parses as the integer 50). -/
theorem register_weight_resolution_witness :
    (∃ b a, submittedAdds (RegisterBackend env0 clientOK ⟨none⟩ tiSync).calls = [(b, a)]
      ∧ (∀ v, atoi (tiSync.findEnvValue vaasInitialWeight) = some v → b.weight = some v)
      ∧ (atoi (tiSync.findEnvValue vaasInitialWeight) = none →
          b.weight = match tiSync.getWeight with
            | .ok w => some w
            | .error _ => none))
    ∧ atoi (tiSync.findEnvValue vaasInitialWeight) = some 50 :=
  ⟨register_weight_resolution env0 clientOK ⟨none⟩ tiSync "dc1" ⟨"dc1"⟩ 7 8080
      [9090] (by decide) rfl rfl rfl rfl, by decide⟩

/-- C10: the one submitted spec carries the number of the first advertised
port, and the advertised ports beyond the first never influence the
submitted specs. -/
theorem register_port_first (env : Env) (client : Client) (sh : Hook)
    (ti : TaskInfo) (rdc : String) (dc : DC) (did : Int) (p : Nat)
    (rest : List Nat)
    (hdir : ti.getLabelValue vaasDirectorLabelKey ≠ "")
    (hdc : env.datacenter = .ok rdc)
    (hgdc : client.getDC rdc = .ok dc)
    (hfd : client.findDirectorID (ti.getLabelValue vaasDirectorLabelKey) = .ok did)
    (hports : ti.ports = p :: rest) :
    ∃ b a, submittedAdds (RegisterBackend env client sh ti).calls = [(b, a)]
      ∧ b.port = Int.ofNat p
      ∧ (∀ rest', submittedAdds
          (RegisterBackend env client sh { ti with ports := p :: rest' }).calls
          = submittedAdds (RegisterBackend env client sh ti).calls) := by
  refine ⟨mkBackend env ti dc did p,
    ti.getLabelValue vaasAsyncLabelKey == "true", ?_, rfl, ?_⟩
  · rw [RegisterBackend_calls env client sh ti rdc dc did p rest hdir hdc hgdc
      hfd hports]
    rfl
  · intro rest'
    rw [RegisterBackend_calls env client sh ti rdc dc did p rest hdir hdc hgdc
        hfd hports,
      RegisterBackend_calls env client sh { ti with ports := p :: rest' } rdc
        dc did p rest' (by exact hdir) hdc hgdc (by exact hfd) rfl]
    rfl

/-- Witness for C10: the concrete descriptor advertising ports 8080 and 9090
submits port 8080, and replacing the tail ports leaves the submission
unchanged. -/
theorem register_port_first_witness :
    ∃ b a, submittedAdds (RegisterBackend env0 clientOK ⟨none⟩ tiSync).calls = [(b, a)]
      ∧ b.port = Int.ofNat 8080
      ∧ (∀ rest', submittedAdds
          (RegisterBackend env0 clientOK ⟨none⟩ { tiSync with ports := 8080 :: rest' }).calls
          = submittedAdds (RegisterBackend env0 clientOK ⟨none⟩ tiSync).calls) :=
  register_port_first env0 clientOK ⟨none⟩ tiSync "dc1" ⟨"dc1"⟩ 7 8080 [9090]
    (by decide) rfl rfl rfl rfl

end Vaas
